import Mathlib

/-!
Verification of the ARLinguaSphere TensorFlow Lite Unity bridge
(`Assets/Plugins/Android/tflite_unity.cpp`).

The bridge owns one native inference session behind an opaque integer
handle (a `jlong`; zero is the "no session" sentinel) and exposes
create / destroy / setInput / invoke / getOutput / introspection
operations over the JNI boundary.

Shallow embedding conventions:

* `jlong` handles and `jint` arguments are `Int`; a pointer is an `Int`
  whose value `0` is the null/sentinel value.
* A caller-side Java array (`jfloatArray` / `jintArray`) is a
  `List Int`, each entry standing for the raw 32-bit payload of one
  element (the bridge only moves float payloads byte-for-byte, it never
  computes with them, so the payload type is opaque).
* `GetFloatArrayElements` / `GetIntArrayElements` pin the array and
  yield a pointer to its elements; the call may fail by returning null,
  which we model by a `pinOk : Bool` oracle argument.
  `ReleaseFloatArrayElements` with mode `JNI_ABORT` discards the
  elements without writeback; mode `0` commits them back to the array.
* The wrapped TensorFlow Lite library is an external collaborator.  Its
  state visible through the bridge is an `Interpreter`: the lists of
  input and output tensors plus the forward-pass `engine`.  The
  accessors `input_tensor` / `output_tensor` are modelled by their
  library contract as used by the bridge: they return the slot's tensor
  for a valid index and the null pointer (`none`) for a missing slot.
* A C++ exception (`std::exception`) raised by a library call is
  modelled by an oracle argument `exn : Option String` at the call
  site (`some msg` = the call raised with message `msg`).  An operation
  whose body wraps the call in `try`/`catch` converts the fault into
  its failure result; an operation with no `try`/`catch` lets the
  fault escape, which we model with `Except.error`.
-/

namespace TFLite

/-- One tensor slot of a session: its shape (`TfLiteIntArray* dims`,
per-dimension extents) and its native float buffer (`data.f`),
element payloads listed in order. -/
structure Tensor where
  dims : List Int
  data : List Int
deriving DecidableEq, Repr

/-- Outcome of the wrapped engine's `Invoke()` forward pass, as observable
through the bridge: success with the fully populated output slots,
a non-`kTfLiteOk` status, or a raised `std::exception`.  The two failure
constructors carry the output slots as the engine left them. -/
inductive InvokeOutcome where
  | ok (outs : List Tensor)
  | fail (outsAfter : List Tensor)
  | fault (msg : String) (outsAfter : List Tensor)

/-- The native session state reachable from a non-sentinel handle: the
`tflite::Interpreter` of the `TFLiteContext`.  `engine` is the wrapped
library's forward pass, a fixed function of the input slots (the
deterministic-engine assumption of the spec makes it a function). -/
structure Interpreter where
  inputs : List Tensor
  outputs : List Tensor
  engine : List Tensor → InvokeOutcome

/-- Library accessor `interpreter->input_tensor(i)` as relied on by the
bridge: the slot's tensor for a valid index, the null pointer (`none`)
for a missing slot. -/
def Interpreter.input_tensor (itp : Interpreter) (i : Int) : Option Tensor :=
  if 0 ≤ i then itp.inputs[i.toNat]? else none

/-- Library accessor `interpreter->output_tensor(i)`, same contract as
`Interpreter.input_tensor`. -/
def Interpreter.output_tensor (itp : Interpreter) (i : Int) : Option Tensor :=
  if 0 ≤ i then itp.outputs[i.toNat]? else none

/-- `memcpy(dest, src, n * sizeof(float))` on element lists: the first `n`
elements of `src` followed by the tail of `dest`.  Meaningful exactly when
`n ≤ src.length` and `n ≤ dest.length`; outside those bounds the C call is
undefined behaviour, so every theorem about it carries those bounds. -/
def memcpyList (dest src : List Int) (n : Nat) : List Int :=
  src.take n ++ dest.drop n

/-- JNI release modes used by the bridge: `JNI_ABORT` (line 118, discard
the pinned copy) and `0` (line 177, commit the pinned copy back). -/
inductive ReleaseMode where
  | jniAbort
  | commit
deriving DecidableEq

/-- `ReleaseFloatArrayElements(arr, elems, mode)`: the caller's array after
the release — unchanged under `JNI_ABORT`, overwritten with the pinned
copy under mode `0`. -/
def releaseElements (arr copyElems : List Int) (m : ReleaseMode) : List Int :=
  match m with
  | .jniAbort => arr
  | .commit => copyElems

/-- Result of `setInputTensor`: the returned `jint` status, the session
state after the call, and the caller's `jfloatArray` contents after the
call. -/
structure SetInputResult where
  status : Int
  itp : Interpreter
  dataArr : List Int


/-- `Java_com_arlinguasphere_TFLitePlugin_setInputTensor` (lines 91–125).
`ptr` is the `jlong` handle, `itp` the session it designates (used only
when `ptr ≠ 0`), `dataArr` the caller's `jfloatArray` contents, `pinOk`
whether `GetFloatArrayElements` succeeds, `exn` whether the
`input_tensor` library call raises (caught by the `catch` at line 121),
`dataSize` the `jint` element count.  On the success path the pinned
copy is spliced into the slot's buffer by `memcpy` (line 116) and the
array is released with `JNI_ABORT` (line 118). -/
def setInputTensor (ptr : Int) (itp : Interpreter) (inputIndex : Int)
    (dataArr : List Int) (pinOk : Bool) (exn : Option String)
    (dataSize : Int) : SetInputResult :=
  if ptr = 0 then
    { status := -1, itp := itp, dataArr := dataArr }
  else
    match exn with
    | some _ => { status := -1, itp := itp, dataArr := dataArr }
    | none =>
      match itp.input_tensor inputIndex with
      | none => { status := -1, itp := itp, dataArr := dataArr }
      | some t =>
        if !pinOk then { status := -1, itp := itp, dataArr := dataArr }
        else
          let copyElems := dataArr
          let newT : Tensor :=
            { t with data := memcpyList t.data copyElems dataSize.toNat }
          { status := 0
            itp := { itp with inputs := itp.inputs.set inputIndex.toNat newT }
            dataArr := releaseElements dataArr copyElems .jniAbort }

/-- `Java_com_arlinguasphere_TFLitePlugin_invoke` (lines 127–148): sentinel
check, then `interpreter->Invoke()` inside `try`/`catch`; a non-ok status
or a caught exception yields `-1`. -/
def invoke (ptr : Int) (itp : Interpreter) : Int × Interpreter :=
  if ptr = 0 then (-1, itp)
  else
    match itp.engine itp.inputs with
    | .ok outs => (0, { itp with outputs := outs })
    | .fail p => (-1, { itp with outputs := p })
    | .fault _ p => (-1, { itp with outputs := p })

/-- Result of `getOutputTensor`: status, session state after, and the
caller's output `jfloatArray` contents after the call. -/
structure GetOutputResult where
  status : Int
  itp : Interpreter
  outArr : List Int


/-- `Java_com_arlinguasphere_TFLitePlugin_getOutputTensor` (lines 150–184).
Mirrors `setInputTensor` but copies from the slot's buffer into the pinned
copy (line 175) and releases with mode `0` (line 177), committing the copy
back into the caller's array. -/
def getOutputTensor (ptr : Int) (itp : Interpreter) (outputIndex : Int)
    (outArr : List Int) (pinOk : Bool) (exn : Option String)
    (outputSize : Int) : GetOutputResult :=
  if ptr = 0 then
    { status := -1, itp := itp, outArr := outArr }
  else
    match exn with
    | some _ => { status := -1, itp := itp, outArr := outArr }
    | none =>
      match itp.output_tensor outputIndex with
      | none => { status := -1, itp := itp, outArr := outArr }
      | some t =>
        if !pinOk then { status := -1, itp := itp, outArr := outArr }
        else
          let copyElems := memcpyList outArr t.data outputSize.toNat
          { status := 0
            itp := itp
            outArr := releaseElements outArr copyElems .commit }

/-- `Java_com_arlinguasphere_TFLitePlugin_getInputTensorCount`
(lines 186–194): `0` for the sentinel, else `interpreter->inputs().size()`.
The library call is made outside any `try`/`catch`, so a raised fault
(`exn = some e`) escapes to the caller (`Except.error`). -/
def getInputTensorCount (ptr : Int) (itp : Interpreter)
    (exn : Option String) : Except String Int :=
  if ptr = 0 then .ok 0
  else
    match exn with
    | some e => .error e
    | none => .ok itp.inputs.length

/-- `Java_com_arlinguasphere_TFLitePlugin_getOutputTensorCount`
(lines 196–204), symmetric to `getInputTensorCount`. -/
def getOutputTensorCount (ptr : Int) (itp : Interpreter)
    (exn : Option String) : Except String Int :=
  if ptr = 0 then .ok 0
  else
    match exn with
    | some e => .error e
    | none => .ok itp.outputs.length

/-- `Java_com_arlinguasphere_TFLitePlugin_destroyInterpreter`
(lines 82–89): no-op on the sentinel, else `delete context`.  There is no
`try`/`catch`, so a fault raised during destruction escapes; on normal
completion the result records that the context was freed. -/
def destroyInterpreter (ptr : Int) (exn : Option String) :
    Except String Bool :=
  if ptr = 0 then .ok false
  else
    match exn with
    | some e => .error e
    | none => .ok true

/-- The copy loop of `getInputTensorShape` / `getOutputTensorShape`
(lines 227–229 and 259–261):
`for (i = 0; i < dims->size && i < GetArrayLength(shape); i++)
   shapeData[i] = dims->data[i];`
writing into the pinned copy `arr` of the caller's `jintArray`. -/
def shapeLoop (dims : List Int) (arr : List Int) (i : Nat) : List Int :=
  if h : i < dims.length ∧ i < arr.length then
    shapeLoop dims (arr.set i (dims.get ⟨i, h.1⟩)) (i + 1)
  else arr
termination_by arr.length - i
decreasing_by simp [List.length_set]; omega

/-- `Java_com_arlinguasphere_TFLitePlugin_getInputTensorShape`
(lines 206–236): returns the caller's `jintArray` contents after the
call.  Every failure (sentinel, missing slot, pin failure, caught
exception) is silent and leaves the array untouched; otherwise the copy
loop runs and the pinned copy is committed (mode `0`, line 231). -/
def getInputTensorShape (ptr : Int) (itp : Interpreter) (inputIndex : Int)
    (shapeArr : List Int) (pinOk : Bool) (exn : Option String) : List Int :=
  if ptr = 0 then shapeArr
  else
    match exn with
    | some _ => shapeArr
    | none =>
      match itp.input_tensor inputIndex with
      | none => shapeArr
      | some t =>
        if !pinOk then shapeArr
        else releaseElements shapeArr (shapeLoop t.dims shapeArr 0) .commit

/-- `Java_com_arlinguasphere_TFLitePlugin_getOutputTensorShape`
(lines 238–268), symmetric to `getInputTensorShape`. -/
def getOutputTensorShape (ptr : Int) (itp : Interpreter) (outputIndex : Int)
    (shapeArr : List Int) (pinOk : Bool) (exn : Option String) : List Int :=
  if ptr = 0 then shapeArr
  else
    match exn with
    | some _ => shapeArr
    | none =>
      match itp.output_tensor outputIndex with
      | none => shapeArr
      | some t =>
        if !pinOk then shapeArr
        else releaseElements shapeArr (shapeLoop t.dims shapeArr 0) .commit

/-- The two native resources `createInterpreter` handles before a session
exists: the pinned model byte array and the `TFLiteContext` allocation
(which owns the model, the interpreter and the resolver). -/
inductive Res where
  | modelBytes
  | context
deriving DecidableEq, BEq, Repr

/-- A resource event of one `createInterpreter` run: acquisition, release
(`ReleaseByteArrayElements`, or the `unique_ptr` destructor at scope
exit / stack unwind), or transfer of ownership to the caller
(`context.release()` at line 73). -/
inductive Event where
  | acquire (r : Res)
  | release (r : Res)
  | transferToCaller (r : Res)
deriving DecidableEq, BEq, Repr

/-- How many times `createInterpreter` acquired resource `r`. -/
def acquiredCount (r : Res) (evs : List Event) : Nat :=
  (evs.filter (· == Event.acquire r)).length

/-- How many times `createInterpreter` disposed of resource `r`, by
release or by transfer to the caller. -/
def disposedCount (r : Res) (evs : List Event) : Nat :=
  (evs.filter (fun e => e == Event.release r || e == Event.transferToCaller r)).length

/-- A run leaks nothing when every acquisition of each resource is matched
by a release or an ownership transfer. -/
def leakFree (evs : List Event) : Bool :=
  acquiredCount .modelBytes evs == disposedCount .modelBytes evs &&
    acquiredCount .context evs == disposedCount .context evs

/-- Which way the `try` block of `createInterpreter` goes, determined by
the external library: `FlatBufferModel::BuildFromBuffer` returns null
(line 44), `InterpreterBuilder` leaves the interpreter null (line 54),
`AllocateTensors` returns non-ok (line 61), a `std::exception` raised by
one of those calls (caught at line 75), or full success producing the
session `itp`. -/
inductive CreateOutcome where
  | parseFail
  | buildFail
  | allocFail
  | fault (msg : String)
  | success (itp : Interpreter)

/-- Result of `createInterpreter`: the returned `jlong` handle, the log
lines emitted, the resource events of the run, and the session owned by
the returned handle (present exactly on success). -/
structure CreateResult where
  handle : Int
  logs : List String
  events : List Event
  session : Option Interpreter

/-- `Java_com_arlinguasphere_TFLitePlugin_createInterpreter` (lines 27–80).
`pinOk` is whether `GetByteArrayElements` succeeds (line 30); `addr` is
the nonzero address of the heap-allocated `TFLiteContext`, which
`reinterpret_cast<jlong>` turns into the handle on the success path
(line 73).  Each failure path logs its own message, releases the pinned
bytes with `JNI_ABORT`, and returns the sentinel `0`; the `unique_ptr`
holding the context frees it on every early return and on stack unwind
(modelled by the `Event.release .context` entries). -/
def createInterpreter (pinOk : Bool) (outcome : CreateOutcome)
    (addr : Int) : CreateResult :=
  if !pinOk then
    { handle := 0, logs := ["Failed to get model bytes"], events := [],
      session := none }
  else
    match outcome with
    | .parseFail =>
      { handle := 0
        logs := ["Failed to create TensorFlow Lite model"]
        events := [.acquire .modelBytes, .acquire .context,
                   .release .modelBytes, .release .context]
        session := none }
    | .buildFail =>
      { handle := 0
        logs := ["Failed to create TensorFlow Lite interpreter"]
        events := [.acquire .modelBytes, .acquire .context,
                   .release .modelBytes, .release .context]
        session := none }
    | .allocFail =>
      { handle := 0
        logs := ["Failed to allocate tensors"]
        events := [.acquire .modelBytes, .acquire .context,
                   .release .modelBytes, .release .context]
        session := none }
    | .fault msg =>
      { handle := 0
        logs := ["Exception creating interpreter: " ++ msg]
        events := [.acquire .modelBytes, .acquire .context,
                   .release .context, .release .modelBytes]
        session := none }
    | .success itp =>
      { handle := addr
        logs := ["TensorFlow Lite interpreter created successfully"]
        events := [.acquire .modelBytes, .acquire .context,
                   .release .modelBytes, .transferToCaller .context]
        session := some itp }

/-- One full inference round against a session: `setInputTensor`, then
`invoke`, then `getOutputTensor`, with a cooperating environment (both
pins succeed, no fault is raised — the setting of the determinism
property).  Returns the session state and the caller's output array
after the round. -/
def runOnce (ptr : Int) (itp : Interpreter) (inIdx : Int)
    (dataArr : List Int) (dataSize : Int) (outIdx : Int)
    (outBuf : List Int) (outputSize : Int) : Interpreter × List Int :=
  let r1 := setInputTensor ptr itp inIdx dataArr true none dataSize
  let r2 := invoke ptr r1.itp
  let r3 := getOutputTensor ptr r2.2 outIdx outBuf true none outputSize
  (r3.itp, r3.outArr)

/-- A concrete live session used to instantiate theorems: one input slot
of shape `[1,4]`, one output slot of shape `[1,2]`, and an engine whose
forward pass always succeeds with output payload `[7, 8]` (the spec's
concrete scenario of a `[1,4]` input and `[1,2]` output model). -/
def itpEx : Interpreter :=
  { inputs := [{ dims := [1, 4], data := [0, 0, 0, 0] }]
    outputs := [{ dims := [1, 2], data := [0, 0] }]
    engine := fun _ => .ok [{ dims := [1, 2], data := [7, 8] }] }

/-! ## Helper lemmas about the copy primitives -/

theorem memcpyList_length (dest src : List Int) (n : Nat)
    (h1 : n ≤ dest.length) (h2 : n ≤ src.length) :
    (memcpyList dest src n).length = dest.length := by
  simp [memcpyList, Nat.min_eq_left h2]
  omega

theorem memcpyList_getElem_lt (dest src : List Int) (n k : Nat)
    (hk : k < n) (h2 : n ≤ src.length) :
    (memcpyList dest src n)[k]? = src[k]? := by
  unfold memcpyList
  rw [List.getElem?_append_left (by simp [Nat.min_eq_left h2]; omega)]
  exact List.getElem?_take_of_lt hk

theorem memcpyList_getElem_ge (dest src : List Int) (n k : Nat)
    (hk : n ≤ k) (h2 : n ≤ src.length) :
    (memcpyList dest src n)[k]? = dest[k]? := by
  unfold memcpyList
  rw [List.getElem?_append_right (by simp [Nat.min_eq_left h2]; omega)]
  simp [Nat.min_eq_left h2]
  congr 1
  omega

theorem memcpyList_full (dest src : List Int) (n : Nat)
    (h : n = dest.length) :
    memcpyList dest src n = src.take n := by
  subst h
  simp [memcpyList]

theorem shapeLoop_length (dims arr : List Int) (i : Nat) :
    (shapeLoop dims arr i).length = arr.length := by
  unfold shapeLoop
  split
  · rename_i h
    rw [shapeLoop_length dims (arr.set i (dims.get ⟨i, h.1⟩)) (i + 1)]
    simp
  · rfl
termination_by arr.length - i
decreasing_by simp [List.length_set]; omega

theorem shapeLoop_getElem (dims arr : List Int) (i k : Nat) :
    (shapeLoop dims arr i)[k]? =
      if i ≤ k ∧ k < dims.length ∧ k < arr.length then dims[k]?
      else arr[k]? := by
  unfold shapeLoop
  split
  · rename_i h
    rw [shapeLoop_getElem dims (arr.set i (dims.get ⟨i, h.1⟩)) (i + 1) k]
    simp only [List.length_set]
    rcases Nat.lt_trichotomy k i with hki | hki | hki
    · rw [List.getElem?_set_ne (by omega)]
      rw [if_neg (by omega), if_neg (by omega)]
    · subst hki
      rw [if_neg (by omega), if_pos ⟨Nat.le_refl _, h.1, h.2⟩]
      rw [List.getElem?_set_eq_of_lt _ h.2, List.getElem?_eq_getElem h.1]
      rfl
    · rw [List.getElem?_set_ne (by omega)]
      by_cases hP : k < dims.length ∧ k < arr.length
      · rw [if_pos ⟨by omega, hP.1, hP.2⟩, if_pos ⟨by omega, hP.1, hP.2⟩]
      · rw [if_neg (by omega), if_neg (by omega)]
  · rename_i h
    rw [if_neg (by omega)]
termination_by arr.length - i
decreasing_by simp [List.length_set]; omega

/-! ## Claim theorems -/

/-- C1: for every operation that takes a handle and returns a status
(`setInputTensor`, `invoke`, `getOutputTensor`), the zero sentinel handle
yields the failure status `-1` immediately, with the session state and
the caller's array untouched, and without crashing (the functions are
total and raise nothing). -/
theorem sentinel_rejected_immediately
    (itp : Interpreter) (idx : Int) (arr : List Int) (pinOk : Bool)
    (exn : Option String) (sz : Int) :
    (setInputTensor 0 itp idx arr pinOk exn sz).status = -1 ∧
    (setInputTensor 0 itp idx arr pinOk exn sz).itp = itp ∧
    (setInputTensor 0 itp idx arr pinOk exn sz).dataArr = arr ∧
    (invoke 0 itp).1 = -1 ∧ (invoke 0 itp).2 = itp ∧
    (getOutputTensor 0 itp idx arr pinOk exn sz).status = -1 ∧
    (getOutputTensor 0 itp idx arr pinOk exn sz).itp = itp ∧
    (getOutputTensor 0 itp idx arr pinOk exn sz).outArr = arr := by
  simp [setInputTensor, invoke, getOutputTensor]

/-- C9: every status-returning operation (`setInputTensor`, `invoke`,
`getOutputTensor`) returns exactly `0` on success and exactly `-1` on
every failure path; no other status value ever appears. -/
theorem status_codes_binary (ptr : Int) (itp : Interpreter) (idx : Int)
    (arr : List Int) (pinOk : Bool) (exn : Option String) (sz : Int) :
    ((setInputTensor ptr itp idx arr pinOk exn sz).status = 0 ∨
      (setInputTensor ptr itp idx arr pinOk exn sz).status = -1) ∧
    ((invoke ptr itp).1 = 0 ∨ (invoke ptr itp).1 = -1) ∧
    ((getOutputTensor ptr itp idx arr pinOk exn sz).status = 0 ∨
      (getOutputTensor ptr itp idx arr pinOk exn sz).status = -1) := by
  unfold setInputTensor invoke getOutputTensor
  refine ⟨?_, ?_, ?_⟩ <;> (repeat' split) <;> simp

/-- C3: each of the three `createInterpreter` failure paths — model parse
failure, interpreter construction failure, tensor allocation failure —
returns the sentinel handle `0`, leaks no resource (every acquisition is
matched by a release), and logs a diagnostic message distinct from the
other two paths. -/
theorem create_failure_paths_safe (addr : Int) :
    ((createInterpreter true .parseFail addr).handle = 0 ∧
      leakFree (createInterpreter true CreateOutcome.parseFail addr).events = true) ∧
    ((createInterpreter true .buildFail addr).handle = 0 ∧
      leakFree (createInterpreter true CreateOutcome.buildFail addr).events = true) ∧
    ((createInterpreter true .allocFail addr).handle = 0 ∧
      leakFree (createInterpreter true CreateOutcome.allocFail addr).events = true) ∧
    (createInterpreter true CreateOutcome.parseFail addr).logs ≠
      (createInterpreter true CreateOutcome.buildFail addr).logs ∧
    (createInterpreter true CreateOutcome.parseFail addr).logs ≠
      (createInterpreter true CreateOutcome.allocFail addr).logs ∧
    (createInterpreter true CreateOutcome.buildFail addr).logs ≠
      (createInterpreter true CreateOutcome.allocFail addr).logs := by
  refine ⟨⟨rfl, ?_⟩, ⟨rfl, ?_⟩, ⟨rfl, ?_⟩, ?_, ?_, ?_⟩ <;>
    simp only [createInterpreter] <;> decide

/-- C4: for a live session, a slot index outside the declared input
(resp. output) range makes `setInputTensor` (resp. `getOutputTensor`)
return the failure status `-1` with the session state, every tensor
buffer, and the caller's array unchanged — the index is rejected before
any use. -/
theorem slot_index_out_of_range_rejected (ptr : Int) (itp : Interpreter)
    (idx : Int) (arr : List Int) (pinOk : Bool) (exn : Option String)
    (sz : Int) (hptr : ptr ≠ 0)
    (hidxIn : idx < 0 ∨ (itp.inputs.length : Int) ≤ idx)
    (hidxOut : idx < 0 ∨ (itp.outputs.length : Int) ≤ idx) :
    (setInputTensor ptr itp idx arr pinOk exn sz).status = -1 ∧
    (setInputTensor ptr itp idx arr pinOk exn sz).itp = itp ∧
    (setInputTensor ptr itp idx arr pinOk exn sz).dataArr = arr ∧
    (getOutputTensor ptr itp idx arr pinOk exn sz).status = -1 ∧
    (getOutputTensor ptr itp idx arr pinOk exn sz).itp = itp ∧
    (getOutputTensor ptr itp idx arr pinOk exn sz).outArr = arr := by
  have hin : itp.input_tensor idx = none := by
    unfold Interpreter.input_tensor
    rcases hidxIn with h | h
    · rw [if_neg (by omega)]
    · rw [if_pos (by omega)]
      exact List.getElem?_eq_none (by omega)
  have hout : itp.output_tensor idx = none := by
    unfold Interpreter.output_tensor
    rcases hidxOut with h | h
    · rw [if_neg (by omega)]
    · rw [if_pos (by omega)]
      exact List.getElem?_eq_none (by omega)
  have hset : setInputTensor ptr itp idx arr pinOk exn sz = ⟨-1, itp, arr⟩ := by
    unfold setInputTensor
    rw [if_neg hptr]
    cases exn <;> simp [hin]
  have hget : getOutputTensor ptr itp idx arr pinOk exn sz = ⟨-1, itp, arr⟩ := by
    unfold getOutputTensor
    rw [if_neg hptr]
    cases exn <;> simp [hout]
  rw [hset, hget]
  exact ⟨rfl, rfl, rfl, rfl, rfl, rfl⟩

/-- Witness for C4: the concrete session `itpEx` (one input, one output)
rejects slot index 5 on both paths and changes nothing. -/
theorem slot_index_out_of_range_rejected_witness :
    (1 : Int) ≠ 0 ∧
    ((5 : Int) < 0 ∨ ((itpEx.inputs.length : Int) ≤ 5)) ∧
    ((5 : Int) < 0 ∨ ((itpEx.outputs.length : Int) ≤ 5)) ∧
    ((setInputTensor 1 itpEx 5 [1, 2] true none 2).status = -1 ∧
      (setInputTensor 1 itpEx 5 [1, 2] true none 2).itp = itpEx ∧
      (setInputTensor 1 itpEx 5 [1, 2] true none 2).dataArr = [1, 2] ∧
      (getOutputTensor 1 itpEx 5 [1, 2] true none 2).status = -1 ∧
      (getOutputTensor 1 itpEx 5 [1, 2] true none 2).itp = itpEx ∧
      (getOutputTensor 1 itpEx 5 [1, 2] true none 2).outArr = [1, 2]) :=
  ⟨by decide, Or.inr (by decide), Or.inr (by decide),
    slot_index_out_of_range_rejected 1 itpEx 5 [1, 2] true none 2
      (by decide) (Or.inr (by decide)) (Or.inr (by decide))⟩

/-- C6: `getInputTensorCount` and `getOutputTensorCount` return `0` (a
successful `0`, not a failure status) on the sentinel handle, and for a
live session return the number of input / output slots declared by the
loaded model. -/
theorem tensor_counts_contract (ptr : Int) (itp : Interpreter)
    (exn : Option String) (hptr : ptr ≠ 0) :
    getInputTensorCount 0 itp exn = .ok 0 ∧
    getOutputTensorCount 0 itp exn = .ok 0 ∧
    getInputTensorCount ptr itp none = .ok (itp.inputs.length : Int) ∧
    getOutputTensorCount ptr itp none = .ok (itp.outputs.length : Int) := by
  refine ⟨rfl, rfl, ?_, ?_⟩ <;>
    simp [getInputTensorCount, getOutputTensorCount, hptr]

/-- Witness for C6 on the concrete session `itpEx` (1 input, 1 output). -/
theorem tensor_counts_contract_witness :
    (1 : Int) ≠ 0 ∧
    (getInputTensorCount 0 itpEx none = .ok 0 ∧
      getOutputTensorCount 0 itpEx none = .ok 0 ∧
      getInputTensorCount 1 itpEx none = .ok (itpEx.inputs.length : Int) ∧
      getOutputTensorCount 1 itpEx none = .ok (itpEx.outputs.length : Int)) :=
  ⟨by decide, tensor_counts_contract 1 itpEx none (by decide)⟩

/-- C5: for a live session and a valid slot index, the shape queries
write exactly the first `min(rank, capacity)` per-dimension extents into
the destination array in dimension order, leave every entry at or past
that point unchanged, and never change the destination's length (no
write past its capacity); a destination shorter than the rank is
silently truncated, not an error. -/
theorem shape_copy_truncation (ptr : Int) (itp : Interpreter) (idx : Int)
    (arr : List Int) (tIn tOut : Tensor) (hptr : ptr ≠ 0)
    (hin : itp.input_tensor idx = some tIn)
    (hout : itp.output_tensor idx = some tOut) :
    (getInputTensorShape ptr itp idx arr true none).length = arr.length ∧
    (∀ k : Nat, k < min tIn.dims.length arr.length →
      (getInputTensorShape ptr itp idx arr true none)[k]? = tIn.dims[k]?) ∧
    (∀ k : Nat, min tIn.dims.length arr.length ≤ k →
      (getInputTensorShape ptr itp idx arr true none)[k]? = arr[k]?) ∧
    (getOutputTensorShape ptr itp idx arr true none).length = arr.length ∧
    (∀ k : Nat, k < min tOut.dims.length arr.length →
      (getOutputTensorShape ptr itp idx arr true none)[k]? = tOut.dims[k]?) ∧
    (∀ k : Nat, min tOut.dims.length arr.length ≤ k →
      (getOutputTensorShape ptr itp idx arr true none)[k]? = arr[k]?) := by
  have hIn : getInputTensorShape ptr itp idx arr true none =
      shapeLoop tIn.dims arr 0 := by
    unfold getInputTensorShape
    rw [if_neg hptr]
    simp [hin, releaseElements]
  have hOut : getOutputTensorShape ptr itp idx arr true none =
      shapeLoop tOut.dims arr 0 := by
    unfold getOutputTensorShape
    rw [if_neg hptr]
    simp [hout, releaseElements]
  rw [hIn, hOut]
  refine ⟨shapeLoop_length _ _ _, ?_, ?_, shapeLoop_length _ _ _, ?_, ?_⟩ <;>
      intro k hk <;> rw [shapeLoop_getElem]
  · rw [if_pos ⟨Nat.zero_le _, by omega, by omega⟩]
  · rw [if_neg (by omega)]
  · rw [if_pos ⟨Nat.zero_le _, by omega, by omega⟩]
  · rw [if_neg (by omega)]

/-- Witness for C5: on `itpEx`, a destination of capacity 1 receives only
the first extent of the rank-2 input shape `[1,4]` (truncation) and of
the rank-2 output shape `[1,2]`, and keeps its length. -/
theorem shape_copy_truncation_witness :
    (1 : Int) ≠ 0 ∧
    itpEx.input_tensor 0 = some { dims := [1, 4], data := [0, 0, 0, 0] } ∧
    itpEx.output_tensor 0 = some { dims := [1, 2], data := [0, 0] } ∧
    ((getInputTensorShape 1 itpEx 0 [9] true none).length = [9].length ∧
      (∀ k : Nat, k < min ([1, 4] : List Int).length [9].length →
        (getInputTensorShape 1 itpEx 0 [9] true none)[k]? =
          ([1, 4] : List Int)[k]?) ∧
      (∀ k : Nat, min ([1, 4] : List Int).length [9].length ≤ k →
        (getInputTensorShape 1 itpEx 0 [9] true none)[k]? = [9][k]?) ∧
      (getOutputTensorShape 1 itpEx 0 [9] true none).length = [9].length ∧
      (∀ k : Nat, k < min ([1, 2] : List Int).length [9].length →
        (getOutputTensorShape 1 itpEx 0 [9] true none)[k]? =
          ([1, 2] : List Int)[k]?) ∧
      (∀ k : Nat, min ([1, 2] : List Int).length [9].length ≤ k →
        (getOutputTensorShape 1 itpEx 0 [9] true none)[k]? = [9][k]?)) :=
  ⟨by decide, by decide, by decide,
    shape_copy_truncation 1 itpEx 0 [9]
      { dims := [1, 4], data := [0, 0, 0, 0] }
      { dims := [1, 2], data := [0, 0] }
      (by decide) (by decide) (by decide)⟩

/-- C7: for a live session and a valid input slot, `setInputTensor`
copies exactly `dataSize` elements from the caller's array into the
slot's native buffer — entry `k` of the buffer becomes entry `k` of the
array for `k < dataSize`, payloads moved verbatim with no shape or type
coercion — while the buffer past `dataSize`, its length, its dims, every
other slot, and the outputs stay unchanged; and on the failure paths
(pin failure or a caught fault) it returns `-1` with the whole session
unchanged: no partial copy. -/
theorem set_input_exact_copy (ptr : Int) (itp : Interpreter) (idx : Int)
    (arr : List Int) (sz : Int) (t : Tensor)
    (hptr : ptr ≠ 0) (ht : itp.input_tensor idx = some t)
    (hsrc : sz.toNat ≤ arr.length) (hdst : sz.toNat ≤ t.data.length) :
    ((setInputTensor ptr itp idx arr true none sz).status = 0 ∧
      (setInputTensor ptr itp idx arr true none sz).itp.inputs =
        itp.inputs.set idx.toNat
          { t with data := memcpyList t.data arr sz.toNat } ∧
      ({ t with data := memcpyList t.data arr sz.toNat } : Tensor).dims =
        t.dims ∧
      (memcpyList t.data arr sz.toNat).length = t.data.length ∧
      (∀ k : Nat, k < sz.toNat →
        (memcpyList t.data arr sz.toNat)[k]? = arr[k]?) ∧
      (∀ k : Nat, sz.toNat ≤ k →
        (memcpyList t.data arr sz.toNat)[k]? = t.data[k]?) ∧
      (setInputTensor ptr itp idx arr true none sz).itp.outputs =
        itp.outputs) ∧
    (∀ (exn : Option String) (pinOk : Bool), pinOk = false ∨ exn ≠ none →
      (setInputTensor ptr itp idx arr pinOk exn sz).status = -1 ∧
      (setInputTensor ptr itp idx arr pinOk exn sz).itp = itp) := by
  have hset : setInputTensor ptr itp idx arr true none sz =
      ⟨0, ⟨itp.inputs.set idx.toNat ⟨t.dims, memcpyList t.data arr sz.toNat⟩,
        itp.outputs, itp.engine⟩, arr⟩ := by
    unfold setInputTensor
    rw [if_neg hptr]
    simp [ht, releaseElements]
  refine ⟨⟨?_, ?_, rfl, memcpyList_length _ _ _ hdst hsrc,
      fun k hk => memcpyList_getElem_lt _ _ _ _ hk hsrc,
      fun k hk => memcpyList_getElem_ge _ _ _ _ hk hsrc, ?_⟩, ?_⟩
  · rw [hset]
  · rw [hset]
  · rw [hset]
  · intro exn pinOk hfail
    cases exn with
    | some m =>
      unfold setInputTensor
      rw [if_neg hptr]
      exact ⟨rfl, rfl⟩
    | none =>
      rcases hfail with h | h
      · subst h
        unfold setInputTensor
        rw [if_neg hptr]
        simp [ht]
      · exact absurd rfl h

/-- Witness for C7: bind `[1,2,3,4]` (length 4) into the `[1,4]` input
slot of `itpEx`. -/
theorem set_input_exact_copy_witness :
    (1 : Int) ≠ 0 ∧
    itpEx.input_tensor 0 = some { dims := [1, 4], data := [0, 0, 0, 0] } ∧
    (4 : Int).toNat ≤ ([1, 2, 3, 4] : List Int).length ∧
    (4 : Int).toNat ≤ ({ dims := [1, 4], data := [0, 0, 0, 0] } : Tensor).data.length ∧
    (((setInputTensor 1 itpEx 0 [1, 2, 3, 4] true none 4).status = 0 ∧
      (setInputTensor 1 itpEx 0 [1, 2, 3, 4] true none 4).itp.inputs =
        itpEx.inputs.set (0 : Int).toNat
          { ({ dims := [1, 4], data := [0, 0, 0, 0] } : Tensor) with
              data := memcpyList [0, 0, 0, 0] [1, 2, 3, 4] (4 : Int).toNat } ∧
      ({ ({ dims := [1, 4], data := [0, 0, 0, 0] } : Tensor) with
          data := memcpyList [0, 0, 0, 0] [1, 2, 3, 4] (4 : Int).toNat } : Tensor).dims =
        ({ dims := [1, 4], data := [0, 0, 0, 0] } : Tensor).dims ∧
      (memcpyList [0, 0, 0, 0] [1, 2, 3, 4] (4 : Int).toNat).length =
        ([0, 0, 0, 0] : List Int).length ∧
      (∀ k : Nat, k < (4 : Int).toNat →
        (memcpyList [0, 0, 0, 0] [1, 2, 3, 4] (4 : Int).toNat)[k]? =
          ([1, 2, 3, 4] : List Int)[k]?) ∧
      (∀ k : Nat, (4 : Int).toNat ≤ k →
        (memcpyList [0, 0, 0, 0] [1, 2, 3, 4] (4 : Int).toNat)[k]? =
          ([0, 0, 0, 0] : List Int)[k]?) ∧
      (setInputTensor 1 itpEx 0 [1, 2, 3, 4] true none 4).itp.outputs =
        itpEx.outputs) ∧
    (∀ (exn : Option String) (pinOk : Bool), pinOk = false ∨ exn ≠ none →
      (setInputTensor 1 itpEx 0 [1, 2, 3, 4] pinOk exn 4).status = -1 ∧
      (setInputTensor 1 itpEx 0 [1, 2, 3, 4] pinOk exn 4).itp = itpEx)) :=
  ⟨by decide, by decide, by decide, by decide,
    set_input_exact_copy 1 itpEx 0 [1, 2, 3, 4] 4
      { dims := [1, 4], data := [0, 0, 0, 0] }
      (by decide) (by decide) (by decide) (by decide)⟩

/-- C10: `setInputTensor` releases the caller's input array with
`JNI_ABORT`, so on every path — success or failure — the caller's array
contents are unchanged; `getOutputTensor` releases with mode `0`, so on
its success path it commits the copied slot data back into the caller's
array: entry `k` becomes slot entry `k` for `k < outputSize`, the rest
keeping their old values. -/
theorem caller_input_array_preserved (ptr : Int) (itp : Interpreter)
    (idx : Int) (arr : List Int) (pinOk : Bool) (exn : Option String)
    (sz : Int) (t : Tensor)
    (hptr : ptr ≠ 0) (ht : itp.output_tensor idx = some t)
    (hsrc : sz.toNat ≤ t.data.length) (hdst : sz.toNat ≤ arr.length) :
    (setInputTensor ptr itp idx arr pinOk exn sz).dataArr = arr ∧
    (getOutputTensor ptr itp idx arr true none sz).outArr =
      memcpyList arr t.data sz.toNat ∧
    (getOutputTensor ptr itp idx arr true none sz).outArr.length =
      arr.length ∧
    (∀ k : Nat, k < sz.toNat →
      (getOutputTensor ptr itp idx arr true none sz).outArr[k]? =
        t.data[k]?) ∧
    (∀ k : Nat, sz.toNat ≤ k →
      (getOutputTensor ptr itp idx arr true none sz).outArr[k]? =
        arr[k]?) := by
  have hget : getOutputTensor ptr itp idx arr true none sz =
      ⟨0, itp, memcpyList arr t.data sz.toNat⟩ := by
    unfold getOutputTensor
    rw [if_neg hptr]
    simp [ht, releaseElements]
  refine ⟨?_, by rw [hget], ?_, ?_, ?_⟩
  · unfold setInputTensor
    rw [if_neg hptr]
    cases exn with
    | some m => rfl
    | none =>
      cases hti : itp.input_tensor idx with
      | none => rfl
      | some u => cases pinOk <;> simp [releaseElements]
  · rw [hget]
    exact memcpyList_length _ _ _ hdst hsrc
  · intro k hk
    rw [hget]
    exact memcpyList_getElem_lt _ _ _ _ hk hsrc
  · intro k hk
    rw [hget]
    exact memcpyList_getElem_ge _ _ _ _ hk hsrc

/-- Witness for C10: reading the `[1,2]` output slot of `itpEx` into a
caller array of length 2 commits the copy; the input array is preserved
on the `setInputTensor` side. -/
theorem caller_input_array_preserved_witness :
    (1 : Int) ≠ 0 ∧
    itpEx.output_tensor 0 = some { dims := [1, 2], data := [0, 0] } ∧
    (2 : Int).toNat ≤ ({ dims := [1, 2], data := [0, 0] } : Tensor).data.length ∧
    (2 : Int).toNat ≤ ([5, 6] : List Int).length ∧
    ((setInputTensor 1 itpEx 0 [5, 6] true none 2).dataArr = [5, 6] ∧
      (getOutputTensor 1 itpEx 0 [5, 6] true none 2).outArr =
        memcpyList [5, 6] [0, 0] (2 : Int).toNat ∧
      (getOutputTensor 1 itpEx 0 [5, 6] true none 2).outArr.length =
        ([5, 6] : List Int).length ∧
      (∀ k : Nat, k < (2 : Int).toNat →
        (getOutputTensor 1 itpEx 0 [5, 6] true none 2).outArr[k]? =
          ([0, 0] : List Int)[k]?) ∧
      (∀ k : Nat, (2 : Int).toNat ≤ k →
        (getOutputTensor 1 itpEx 0 [5, 6] true none 2).outArr[k]? =
          ([5, 6] : List Int)[k]?)) :=
  ⟨by decide, by decide, by decide, by decide,
    caller_input_array_preserved 1 itpEx 0 [5, 6] true none 2
      { dims := [1, 2], data := [0, 0] }
      (by decide) (by decide) (by decide) (by decide)⟩

/-- C2 counterexample: `getInputTensorCount` performs its library call
(`interpreter->inputs()`, line 193) outside any try/catch, so a fault
raised there escapes to the caller as `Except.error` instead of being
converted into the operation's documented failure signal — refuting the
claim that no operation of the bridge ever propagates a fault. -/
theorem count_fault_propagates_cex :
    getInputTensorCount 1 itpEx (some "boom") = .error "boom" ∧
    destroyInterpreter 1 (some "boom") = .error "boom" := by
  exact ⟨rfl, rfl⟩

/-- C2 (amended): the operations whose bodies wrap their library calls in
try/catch — `createInterpreter`, `setInputTensor`, `invoke`,
`getOutputTensor` and the two shape queries — convert a raised native
fault into their documented failure signal (sentinel `0`, status `-1`,
or silent no-op); but `destroyInterpreter`, `getInputTensorCount` and
`getOutputTensorCount` perform their library calls outside any catch
boundary and propagate a raised fault to the caller. -/
theorem fault_boundary_per_operation (ptr : Int) (itp : Interpreter)
    (idx : Int) (arr : List Int) (pinOk : Bool) (sz : Int) (msg : String)
    (addr : Int) (outsAfter : List Tensor) (hptr : ptr ≠ 0) :
    (createInterpreter true (.fault msg) addr).handle = 0 ∧
    (setInputTensor ptr itp idx arr pinOk (some msg) sz).status = -1 ∧
    (setInputTensor ptr itp idx arr pinOk (some msg) sz).itp = itp ∧
    (itp.engine itp.inputs = .fault msg outsAfter →
      (invoke ptr itp).1 = -1) ∧
    (getOutputTensor ptr itp idx arr pinOk (some msg) sz).status = -1 ∧
    getInputTensorShape ptr itp idx arr pinOk (some msg) = arr ∧
    getOutputTensorShape ptr itp idx arr pinOk (some msg) = arr ∧
    destroyInterpreter ptr (some msg) = .error msg ∧
    getInputTensorCount ptr itp (some msg) = .error msg ∧
    getOutputTensorCount ptr itp (some msg) = .error msg := by
  refine ⟨rfl, ?_, ?_, ?_, ?_, ?_, ?_, ?_, ?_, ?_⟩
  · unfold setInputTensor
    rw [if_neg hptr]
  · unfold setInputTensor
    rw [if_neg hptr]
  · intro h
    unfold invoke
    rw [if_neg hptr, h]
  · unfold getOutputTensor
    rw [if_neg hptr]
  · unfold getInputTensorShape
    rw [if_neg hptr]
  · unfold getOutputTensorShape
    rw [if_neg hptr]
  · unfold destroyInterpreter
    rw [if_neg hptr]
  · unfold getInputTensorCount
    rw [if_neg hptr]
  · unfold getOutputTensorCount
    rw [if_neg hptr]

/-- Witness for the amended C2 at a concrete session and fault. -/
theorem fault_boundary_per_operation_witness :
    (1 : Int) ≠ 0 ∧
    ((createInterpreter true (.fault "boom") 7).handle = 0 ∧
      (setInputTensor 1 itpEx 0 [1, 2] true (some "boom") 2).status = -1 ∧
      (setInputTensor 1 itpEx 0 [1, 2] true (some "boom") 2).itp = itpEx ∧
      (itpEx.engine itpEx.inputs = .fault "boom" [] →
        (invoke 1 itpEx).1 = -1) ∧
      (getOutputTensor 1 itpEx 0 [1, 2] true (some "boom") 2).status = -1 ∧
      getInputTensorShape 1 itpEx 0 [1, 2] true (some "boom") = [1, 2] ∧
      getOutputTensorShape 1 itpEx 0 [1, 2] true (some "boom") = [1, 2] ∧
      destroyInterpreter 1 (some "boom") = .error "boom" ∧
      getInputTensorCount 1 itpEx (some "boom") = .error "boom" ∧
      getOutputTensorCount 1 itpEx (some "boom") = .error "boom") :=
  ⟨by decide,
    fault_boundary_per_operation 1 itpEx 0 [1, 2] true 2 "boom" 7 []
      (by decide)⟩

/-- C8: for a live session whose (deterministic) engine accepts the bound
inputs, two consecutive rounds of `setInputTensor`, `invoke`,
`getOutputTensor` with the same input data and matching lengths leave
the caller's output buffer identical after the second round — the
bridge introduces no nondeterminism of its own. -/
theorem pipeline_deterministic (ptr : Int) (itp : Interpreter)
    (inIdx outIdx : Int) (dataArr outBuf : List Int)
    (dataSize outputSize : Int) (t u : Tensor) (outs : List Tensor)
    (hptr : ptr ≠ 0)
    (ht : itp.input_tensor inIdx = some t)
    (hn1 : dataSize.toNat ≤ dataArr.length)
    (_hn2 : dataSize.toNat ≤ t.data.length)
    (heng : itp.engine (itp.inputs.set inIdx.toNat
        ⟨t.dims, memcpyList t.data dataArr dataSize.toNat⟩) = .ok outs)
    (hou : 0 ≤ outIdx) (hu : outs[outIdx.toNat]? = some u)
    (hm1 : outputSize.toNat ≤ u.data.length)
    (_hm2 : outputSize.toNat ≤ outBuf.length) :
    (runOnce ptr
        (runOnce ptr itp inIdx dataArr dataSize outIdx outBuf outputSize).1
        inIdx dataArr dataSize outIdx
        (runOnce ptr itp inIdx dataArr dataSize outIdx outBuf outputSize).2
        outputSize).2 =
      (runOnce ptr itp inIdx dataArr dataSize outIdx outBuf outputSize).2 := by
  have h0 : 0 ≤ inIdx := by
    by_contra h
    unfold Interpreter.input_tensor at ht
    rw [if_neg h] at ht
    exact Option.noConfusion ht
  have hts : itp.inputs[inIdx.toNat]? = some t := by
    have := ht
    unfold Interpreter.input_tensor at this
    rwa [if_pos h0] at this
  have hlt : inIdx.toNat < itp.inputs.length := by
    by_contra hcon
    rw [List.getElem?_eq_none (by omega)] at hts
    exact Option.noConfusion hts
  have hset1 : setInputTensor ptr itp inIdx dataArr true none dataSize =
      ⟨0, ⟨itp.inputs.set inIdx.toNat
        ⟨t.dims, memcpyList t.data dataArr dataSize.toNat⟩,
        itp.outputs, itp.engine⟩, dataArr⟩ := by
    unfold setInputTensor
    rw [if_neg hptr]
    simp [ht, releaseElements]
  have hinv1 : invoke ptr
      (⟨itp.inputs.set inIdx.toNat
          ⟨t.dims, memcpyList t.data dataArr dataSize.toNat⟩,
        itp.outputs, itp.engine⟩ : Interpreter) =
      (0, ⟨itp.inputs.set inIdx.toNat
          ⟨t.dims, memcpyList t.data dataArr dataSize.toNat⟩,
        outs, itp.engine⟩) := by
    unfold invoke
    rw [if_neg hptr]
    simp only []
    rw [heng]
  have hot : (⟨itp.inputs.set inIdx.toNat
        ⟨t.dims, memcpyList t.data dataArr dataSize.toNat⟩,
      outs, itp.engine⟩ : Interpreter).output_tensor outIdx = some u := by
    unfold Interpreter.output_tensor
    rw [if_pos hou]
    exact hu
  have hget1 : getOutputTensor ptr
      (⟨itp.inputs.set inIdx.toNat
          ⟨t.dims, memcpyList t.data dataArr dataSize.toNat⟩,
        outs, itp.engine⟩ : Interpreter) outIdx outBuf true none outputSize =
      ⟨0, ⟨itp.inputs.set inIdx.toNat
          ⟨t.dims, memcpyList t.data dataArr dataSize.toNat⟩,
        outs, itp.engine⟩,
        memcpyList outBuf u.data outputSize.toNat⟩ := by
    unfold getOutputTensor
    rw [if_neg hptr]
    simp [hot, releaseElements]
  have run1 : runOnce ptr itp inIdx dataArr dataSize outIdx outBuf
      outputSize =
      (⟨itp.inputs.set inIdx.toNat
          ⟨t.dims, memcpyList t.data dataArr dataSize.toNat⟩,
        outs, itp.engine⟩,
        memcpyList outBuf u.data outputSize.toNat) := by
    unfold runOnce
    rw [hset1]
    simp only []
    rw [hinv1]
    simp only []
    rw [hget1]
  have hdata : memcpyList
      (memcpyList t.data dataArr dataSize.toNat) dataArr dataSize.toNat =
      memcpyList t.data dataArr dataSize.toNat := by
    unfold memcpyList
    rw [List.drop_left' (by simp [Nat.min_eq_left hn1])]
  have ht2 : (⟨itp.inputs.set inIdx.toNat
        ⟨t.dims, memcpyList t.data dataArr dataSize.toNat⟩,
      outs, itp.engine⟩ : Interpreter).input_tensor inIdx =
      some ⟨t.dims, memcpyList t.data dataArr dataSize.toNat⟩ := by
    unfold Interpreter.input_tensor
    rw [if_pos h0]
    exact List.getElem?_set_eq_of_lt _ hlt
  have hset2 : setInputTensor ptr
      (⟨itp.inputs.set inIdx.toNat
          ⟨t.dims, memcpyList t.data dataArr dataSize.toNat⟩,
        outs, itp.engine⟩ : Interpreter) inIdx dataArr true none dataSize =
      ⟨0, ⟨itp.inputs.set inIdx.toNat
          ⟨t.dims, memcpyList t.data dataArr dataSize.toNat⟩,
        outs, itp.engine⟩, dataArr⟩ := by
    unfold setInputTensor
    rw [if_neg hptr]
    simp only [ht2, releaseElements]
    rw [hdata]
    simp [List.set_set]
  have hinv2 : invoke ptr
      (⟨itp.inputs.set inIdx.toNat
          ⟨t.dims, memcpyList t.data dataArr dataSize.toNat⟩,
        outs, itp.engine⟩ : Interpreter) =
      (0, ⟨itp.inputs.set inIdx.toNat
          ⟨t.dims, memcpyList t.data dataArr dataSize.toNat⟩,
        outs, itp.engine⟩) := by
    unfold invoke
    rw [if_neg hptr]
    simp only []
    rw [heng]
  have hbuf : memcpyList
      (memcpyList outBuf u.data outputSize.toNat) u.data outputSize.toNat =
      memcpyList outBuf u.data outputSize.toNat := by
    unfold memcpyList
    rw [List.drop_left' (by simp [Nat.min_eq_left hm1])]
  have hget2 : getOutputTensor ptr
      (⟨itp.inputs.set inIdx.toNat
          ⟨t.dims, memcpyList t.data dataArr dataSize.toNat⟩,
        outs, itp.engine⟩ : Interpreter) outIdx
      (memcpyList outBuf u.data outputSize.toNat) true none outputSize =
      ⟨0, ⟨itp.inputs.set inIdx.toNat
          ⟨t.dims, memcpyList t.data dataArr dataSize.toNat⟩,
        outs, itp.engine⟩,
        memcpyList outBuf u.data outputSize.toNat⟩ := by
    unfold getOutputTensor
    rw [if_neg hptr]
    simp only [hot, releaseElements]
    rw [hbuf]
    simp
  rw [run1]
  simp only []
  unfold runOnce
  rw [hset2]
  simp only []
  rw [hinv2]
  simp only []
  rw [hget2]

/-- Witness for C8 on `itpEx` with the spec's concrete scenario: input
`[1,2,3,4]` of length 4 into the `[1,4]` slot, output of length 2 from
the `[1,2]` slot, run twice. -/
theorem pipeline_deterministic_witness :
    (1 : Int) ≠ 0 ∧
    itpEx.input_tensor 0 = some { dims := [1, 4], data := [0, 0, 0, 0] } ∧
    itpEx.engine (itpEx.inputs.set (0 : Int).toNat
        ⟨({ dims := [1, 4], data := [0, 0, 0, 0] } : Tensor).dims,
          memcpyList [0, 0, 0, 0] [1, 2, 3, 4] (4 : Int).toNat⟩) =
      .ok [{ dims := [1, 2], data := [7, 8] }] ∧
    ([{ dims := [1, 2], data := [7, 8] }] :
        List Tensor)[(0 : Int).toNat]? =
      some { dims := [1, 2], data := [7, 8] } ∧
    (runOnce 1
        (runOnce 1 itpEx 0 [1, 2, 3, 4] 4 0 [0, 0] 2).1
        0 [1, 2, 3, 4] 4 0
        (runOnce 1 itpEx 0 [1, 2, 3, 4] 4 0 [0, 0] 2).2 2).2 =
      (runOnce 1 itpEx 0 [1, 2, 3, 4] 4 0 [0, 0] 2).2 :=
  ⟨by decide, by decide, rfl, by decide,
    pipeline_deterministic 1 itpEx 0 0 [1, 2, 3, 4] [0, 0] 4 2
      { dims := [1, 4], data := [0, 0, 0, 0] }
      { dims := [1, 2], data := [7, 8] }
      [{ dims := [1, 2], data := [7, 8] }]
      (by decide) (by decide) (by decide) (by decide) rfl
      (by decide) (by decide) (by decide) (by decide)⟩

end TFLite
